import Mathlib

/-!
Verification of the `my-node-bundler` project generator.

The repository holds two variants of the generator CLI (`src/index.js` and an
unnamed second variant, called variant A and variant B below).  Both embed, in
the generated `server.js` template, an available-port discovery routine
`findAvailablePort`.  We model:

* `findAvailablePort` as a function over an availability oracle
  `free : Nat → Bool` (`free q = true` means a transient listener can bind
  port `q`, i.e. the `server.listen(q)` probe succeeds instead of erroring);
* each generator variant as the list of filesystem operations it performs, in
  source order, over paths given as segment lists relative to the project
  root directory `./<name>`;
* the package manifest as a record (the source builds a JS object and
  serializes it with `JSON.stringify(·, null, 2)`, which is a deterministic
  pure function of the object, so byte-equality of the written manifest file
  corresponds to equality of `Manifest` values).
-/

namespace MyNodeBundler

/-- Shallow embedding of `findAvailablePort` from the generated `server.js`
template (`src/index.js` lines 88-103, identically `src/unnamed/part_000`
lines 70-85): probe `port`; if the bind succeeds return `port`, on a bind
error retry at `port + 1` while `port < maxPort`, otherwise resolve `null`.
The source gives `maxPort` the default value `65535`; we pass it explicitly. -/
def findAvailablePort (free : Nat → Bool) (port maxPort : Nat) : Option Nat :=
  if free port then some port
  else if port < maxPort then findAvailablePort free (port + 1) maxPort
  else none
termination_by maxPort - port
decreasing_by omega

/-- The sequence of candidate ports probed by `findAvailablePort free port
maxPort`, in order: the same recursion structure, recording each probed
candidate instead of the outcome. -/
def probeTrace (free : Nat → Bool) (port maxPort : Nat) : List Nat :=
  if free port then [port]
  else if port < maxPort then port :: probeTrace free (port + 1) maxPort
  else [port]
termination_by maxPort - port
decreasing_by omega

/-- The package manifest object built by `createProject` (the `packageJson`
object literal of both variants).  The source serializes it with
`JSON.stringify(packageJson, null, 2)`; key order is insertion order, so the
record mirrors the literal field by field, with the two dependency maps kept
as association lists in literal order. -/
structure Manifest where
  name : String
  version : String
  main : String
  type : String
  scripts : List (String × String)
  dependencies : List (String × String)
  devDependencies : List (String × String)
deriving DecidableEq

/-- The `packageJson` object of variant A (`src/index.js` lines 34-52):
scripts `start` and `dev`. -/
def packageJsonA (name : String) : Manifest :=
  ⟨name, "1.0.0", "server.js", "module",
    [("start", "node server.js"), ("dev", "nodemon server.js")],
    [("express", "^4.17.1"), ("cors", "^2.8.5"), ("dotenv", "^10.0.0"),
      ("mongoose", "^6.0.0")],
    [("nodemon", "^3.1.7")]⟩

/-- The `packageJson` object of variant B (`src/unnamed/part_000` lines
23-41): scripts `start` and `run`. -/
def packageJsonB (name : String) : Manifest :=
  ⟨name, "1.0.0", "server.js", "module",
    [("start", "node server.js"), ("run", "nodemon server.js")],
    [("express", "^4.17.1"), ("cors", "^2.8.5"), ("dotenv", "^10.0.0"),
      ("mongoose", "^6.0.0")],
    [("nodemon", "^3.1.7")]⟩

/-- The `appJsContent` template literal of variant A (`src/index.js` lines
56-69). -/
def appJsContent : String :=
  "\nimport express from \x27express\x27;\nimport cors from \x27cors\x27;\nimport userRoutes from \x27./routes/userRoutes.js\x27;\n\nconst app = express();\n\napp.use(cors());\napp.use(express.json());\n\n// Use routes from the routes folder\napp.use(\x27/api/user\x27, userRoutes);\n\nexport default app;"

/-- The `serverJsContent` template literal of variant A (`src/index.js` lines
74-114). -/
def serverJsContentA : String :=
  "\nimport dotenv from \x27dotenv\x27;\nimport \x7b connectDB \x7d from \x27./src/config/db.js\x27;\nimport http from \x27http\x27;\nimport app from \x27./src/app.js\x27; // Correctly import app\n\ndotenv.config();\n\n// Connect to MongoDB\nconnectDB();\n\nconst PORT = process.env.PORT || 3000;\n\n// Function to find an available port\nconst findAvailablePort = (port, maxPort = 65535) => \x7b\n  return new Promise((resolve) => \x7b\n    const server = http.createServer();\n    server.listen(port, () => \x7b\n      server.close();\n      resolve(port);\n    \x7d);\n    server.on(\x27error\x27, () => \x7b\n      if (port < maxPort) \x7b\n        resolve(findAvailablePort(port + 1, maxPort));\n      \x7d else \x7b\n        resolve(null); // No available port found\n      \x7d\n    \x7d);\n  \x7d);\n\x7d;\n\n// Start the server\nfindAvailablePort(PORT).then((availablePort) => \x7b\n  if (availablePort) \x7b\n    app.listen(availablePort, () => \x7b\n      console.log(\x60Server is running on port $\x7bavailablePort\x7d\x60);\n    \x7d);\n  \x7d else \x7b\n    console.error(\x27No available ports found.\x27);\n  \x7d\n\x7d);"

/-- The `dbJsContent` template literal of variant A (`src/index.js` lines
119-139). -/
def dbJsContentA : String :=
  "import mongoose from \x27mongoose\x27;\n\nexport const connectDB = async () => \x7b\n    try \x7b\n        mongoose.connection.on(\x27connected\x27, () => \x7b\n            console.log(\x27MongoDB connected\x27);\n        \x7d);\n\n        mongoose.connection.on(\x27error\x27, (err) => \x7b\n            console.log(\x27MongoDB error: \x27 + err);\n        \x7d);\n\n        await mongoose.connect(process.env.MONGO_URI || \"mongodb://localhost:27017/mydatabase\", \x7b\n            useNewUrlParser: true,\n            useUnifiedTopology: true,\n        \x7d);\n    \x7d catch (error) \x7b\n        console.error(\x27Error connecting to MongoDB:\x27, error.message);\n        process.exit(1);\n    \x7d\n\x7d;"

/-- The `routesIndexContent` template literal of variant A (`src/index.js`
lines 144-152). -/
def routesIndexContentA : String :=
  "import express from \x27express\x27;\nimport userRoutes from \x27./userRoutes.js\x27;\n\nconst router = express.Router();\n\n// Use user routes\nrouter.use(\x27/users\x27, userRoutes);\n\nexport default router;"

/-- The `userRoutesContent` template literal of variant A (`src/index.js`
lines 157-172): the router variable is named `userRouter`. -/
def userRoutesContentA : String :=
  "import express from \x27express\x27;\n\nconst userRouter = express.Router();\n\n// Sample user routes\nuserRouter.get(\x27/\x27, (req, res) => \x7b\n    res.send(\x27Get all users\x27);\n\x7d);\n\nuserRouter.post(\x27/\x27, (req, res) => \x7b\n    res.send(\x27Create a user\x27);\n\x7d);\n\n// Define other user-related routes here\n\nexport default userRouter;"

/-- The `serverJsContent` template literal of variant B
(`src/unnamed/part_000` lines 45-96): an inline express app, no `app.js`. -/
def serverJsContentB : String :=
  "import express from \x27express\x27;\nimport cors from \x27cors\x27;\nimport dotenv from \x27dotenv\x27;\nimport \x7b connectDB \x7d from \x27./src/config/db.js\x27;\nimport routes from \x27./src/routes/index.js\x27;\n\ndotenv.config();\n\n// Connect to MongoDB\nconnectDB();\n\nconst app = express();\nconst PORT = process.env.PORT || 3000;\n\napp.use(cors());\napp.use(express.json());\n\n// Use routes from the routes folder\napp.use(\x27/api\x27, routes);\n\napp.get(\x27/\x27, (req, res) => \x7b\n    res.send(\x27Hello, World!\x27);\n\x7d);\n\n// Function to find an available port\nconst findAvailablePort = (port, maxPort = 65535) => \x7b\n    return new Promise((resolve) => \x7b\n        const server = http.createServer();\n        server.listen(port, () => \x7b\n            server.close();\n            resolve(port);\n        \x7d);\n        server.on(\x27error\x27, () => \x7b\n            if (port < maxPort) \x7b\n                resolve(findAvailablePort(port + 1, maxPort));\n            \x7d else \x7b\n                resolve(null); // No available port found\n            \x7d\n        \x7d);\n    \x7d);\n\x7d;\n\n// Start the server\nfindAvailablePort(PORT).then((availablePort) => \x7b\n    if (availablePort) \x7b\n        app.listen(availablePort, () => \x7b\n            console.log(\x60Server is running on port $\x7bavailablePort\x7d\x60);\n        \x7d);\n    \x7d else \x7b\n        console.error(\x27No available ports found.\x27);\n    \x7d\n\x7d);"

/-- The `dbJsContent` template literal of variant B (`src/unnamed/part_000`
lines 110-130). -/
def dbJsContentB : String :=
  "import mongoose from \x27mongoose\x27;\n\nexport const connectDB = async () => \x7b\n    try \x7b\n        mongoose.connection.on(\x27connected\x27, () => \x7b\n            console.log(\x27MongoDB connected\x27);\n        \x7d);\n\n        mongoose.connection.on(\x27error\x27, (err) => \x7b\n            console.log(\x27MongoDB error: \x27 + err);\n        \x7d);\n\n        await mongoose.connect(process.env.MONGO_URI || \"mongodb://localhost:27017/mydatabase\", \x7b\n            useNewUrlParser: true,\n            useUnifiedTopology: true,\n        \x7d);\n    \x7d catch (error) \x7b\n        console.error(\x27Error connecting to MongoDB:\x27, error.message);\n        process.exit(1);\n    \x7d\n\x7d;"

/-- The `routesIndexContent` template literal of variant B
(`src/unnamed/part_000` lines 135-143). -/
def routesIndexContentB : String :=
  "import express from \x27express\x27;\nimport userRoutes from \x27./userRoutes.js\x27;\n\nconst router = express.Router();\n\n// Use user routes\nrouter.use(\x27/users\x27, userRoutes);\n\nexport default router;"

/-- The `userRoutesContent` template literal of variant B
(`src/unnamed/part_000` lines 148-163): the router variable is named
`router`. -/
def userRoutesContentB : String :=
  "import express from \x27express\x27;\n\nconst router = express.Router();\n\n// Sample user routes\nrouter.get(\x27/\x27, (req, res) => \x7b\n    res.send(\x27Get all users\x27);\n\x7d);\n\nrouter.post(\x27/\x27, (req, res) => \x7b\n    res.send(\x27Create a user\x27);\n\x7d);\n\n// Define other user-related routes here\n\nexport default router;"

/-- The bytes written to a file: either a literal template text, or the
manifest serialized by `JSON.stringify(·, null, 2)` (a deterministic pure
function of the `Manifest` value, which we therefore carry unserialized). -/
inductive FileContent
  | fileText (s : String)
  | manifestJson (m : Manifest)
deriving DecidableEq

/-- A filesystem operation of `createProject`.  Paths are segment lists
relative to the project root directory `./<name>`; the root itself is `[]`. -/
inductive FsOp
  | ensureDir (path : List String)
  | writeFile (path : List String) (content : FileContent)
deriving DecidableEq

/-- The operations of variant A's `createProject` (`src/index.js` lines
20-174), in source order: root and all subdirectories are ensured first,
then `package.json`, `src/app.js`, `server.js`, `src/config/db.js`,
`src/routes/index.js` and `src/routes/userRoutes.js` are written. -/
def createProjectOpsA (name : String) : List FsOp :=
  [.ensureDir [],
   .ensureDir ["public"],
   .ensureDir ["src"],
   .ensureDir ["src", "config"],
   .ensureDir ["src", "controllers"],
   .ensureDir ["src", "models"],
   .ensureDir ["src", "routes"],
   .ensureDir ["src", "utils"],
   .writeFile ["package.json"] (.manifestJson (packageJsonA name)),
   .writeFile ["src", "app.js"] (.fileText appJsContent),
   .writeFile ["server.js"] (.fileText serverJsContentA),
   .writeFile ["src", "config", "db.js"] (.fileText dbJsContentA),
   .writeFile ["src", "routes", "index.js"] (.fileText routesIndexContentA),
   .writeFile ["src", "routes", "userRoutes.js"] (.fileText userRoutesContentA)]

/-- The operations of variant B's `createProject` (`src/unnamed/part_000`
lines 18-165), in source order: the root is ensured, `package.json` and
`server.js` are written, then the subdirectories are ensured, then the
remaining files are written. -/
def createProjectOpsB (name : String) : List FsOp :=
  [.ensureDir [],
   .writeFile ["package.json"] (.manifestJson (packageJsonB name)),
   .writeFile ["server.js"] (.fileText serverJsContentB),
   .ensureDir ["public"],
   .ensureDir ["src"],
   .ensureDir ["src", "config"],
   .ensureDir ["src", "controllers"],
   .ensureDir ["src", "models"],
   .ensureDir ["src", "routes"],
   .ensureDir ["src", "utils"],
   .writeFile ["src", "config", "db.js"] (.fileText dbJsContentB),
   .writeFile ["src", "routes", "index.js"] (.fileText routesIndexContentB),
   .writeFile ["src", "routes", "userRoutes.js"] (.fileText userRoutesContentB)]

/-- The paths of the files an operation list writes, in order. -/
def writePaths : List FsOp → List (List String)
  | [] => []
  | FsOp.writeFile p _ :: rest => p :: writePaths rest
  | FsOp.ensureDir _ :: rest => writePaths rest

/-- The paths of the directories an operation list ensures, in order. -/
def dirPaths : List FsOp → List (List String)
  | [] => []
  | FsOp.ensureDir p :: rest => p :: dirPaths rest
  | FsOp.writeFile _ _ :: rest => dirPaths rest

/-- `writesAfterDirs ensured ops = true` when every `writeFile` of `ops`
targets a path whose parent directory (`dropLast` of its segments, the
project root being `[]`) was ensured by an earlier operation of the run or is
already in `ensured`. -/
def writesAfterDirs (ensured : List (List String)) : List FsOp → Bool
  | [] => true
  | FsOp.ensureDir p :: rest => writesAfterDirs (p :: ensured) rest
  | FsOp.writeFile p _ :: rest =>
      ensured.contains p.dropLast && writesAfterDirs ensured rest

/-- A filesystem state: which directories exist and what each file holds. -/
structure FS where
  dirs : List String → Bool
  files : List String → Option FileContent

/-- One filesystem operation, as the generator performs it: `fs.ensureDir` is
idempotent directory creation and `fs.writeFile` overwrites unconditionally. -/
def applyOp (fs : FS) : FsOp → FS
  | FsOp.ensureDir p => ⟨fun q => (q == p) || fs.dirs q, fs.files⟩
  | FsOp.writeFile p c => ⟨fs.dirs, fun q => if q = p then some c else fs.files q⟩

/-- Run a list of filesystem operations left to right (the source awaits each
operation before issuing the next). -/
def applyOps (ops : List FsOp) (fs : FS) : FS :=
  ops.foldl applyOp fs

/-- Outcome of the dependency-installation step of variant B
(`await execPromise("cd <dir> && npm install")`): success, or a rejection
carrying the captured stderr. -/
inductive InstallResult
  | ok
  | failed (stderr : String)
deriving DecidableEq

/-- What a generator run reports after the file writes: its console log
lines, whether it ran `npm install`, and the process exit status. -/
structure RunOutcome where
  logs : List String
  ranNpmInstall : Bool
  exitCode : Nat
deriving DecidableEq

/-- The final step of variant A (`src/index.js` lines 176-179): print the
success message and the manual install instructions; nothing is executed and
the process exits 0. -/
def createProjectAFinish (name : String) : RunOutcome :=
  ⟨["Project " ++ name ++ " created successfully!",
    "You can now navigate to the project directory and run \"npm install\" to install dependencies."],
   false, 0⟩

/-- The final step of variant B (`src/unnamed/part_000` lines 167-176):
print the success message, run `npm install` inside a `try`, log either the
success line or — in the `catch` — the error line with the captured stderr,
and fall off the end of the function either way, so the process exits 0. -/
def createProjectBFinish (name : String) (r : InstallResult) : RunOutcome :=
  match r with
  | InstallResult.ok =>
      ⟨["Project " ++ name ++ " created successfully!",
        "Installing dependencies...",
        "Dependencies installed successfully!"], true, 0⟩
  | InstallResult.failed stderr =>
      ⟨["Project " ++ name ++ " created successfully!",
        "Installing dependencies...",
        "Error installing dependencies: " ++ stderr], true, 0⟩

/-- The file set claim C2 enumerates (paths relative to the project root). -/
def claimedProjectFiles : List (List String) :=
  [["package.json"], ["server.js"], ["src", "config", "db.js"],
   ["src", "routes", "index.js"], ["src", "routes", "userRoutes.js"]]

/-- The empty directories claim C2 enumerates. -/
def claimedProjectDirs : List (List String) :=
  [["public"], ["src", "controllers"], ["src", "models"], ["src", "utils"]]

/-- An empty filesystem, used by concrete witnesses. -/
def emptyFS : FS :=
  ⟨fun _ => false, fun _ => none⟩

end MyNodeBundler

namespace MyNodeBundler

/-- Unfolding helper: if the probe at `port` succeeds the search stops at
`port` at once, whatever the ceiling is. -/
theorem fap_of_free (free : Nat → Bool) (port maxPort : Nat) (h : free port = true) :
    findAvailablePort free port maxPort = some port := by
  rw [findAvailablePort]
  simp [h]

/-- If no port of `[p, maxPort]` is free, the search returns `none`. -/
theorem fap_none_of_all_occupied (free : Nat → Bool) (p maxPort : Nat) (hp : p ≤ maxPort)
    (hall : ∀ q, p ≤ q → q ≤ maxPort → free q = false) :
    findAvailablePort free p maxPort = none := by
  have hfp : free p = false := hall p (le_refl p) hp
  by_cases hlt : p < maxPort
  · rw [findAvailablePort]
    simp only [hfp, if_false, hlt, if_true, Bool.false_eq_true]
    exact fap_none_of_all_occupied free (p + 1) maxPort hlt
      (fun q h1 h2 => hall q (by omega) h2)
  · rw [findAvailablePort]
    simp [hfp, hlt]
termination_by maxPort - p

/-- If some port of `[p, maxPort]` is free, the search succeeds and returns
the least free port that is at least `p`. -/
theorem fap_least_free (free : Nat → Bool) (p maxPort : Nat) (hp : p ≤ maxPort)
    (hex : ∃ q, p ≤ q ∧ q ≤ maxPort ∧ free q = true) :
    ∃ r, findAvailablePort free p maxPort = some r ∧ p ≤ r ∧ r ≤ maxPort ∧ free r = true ∧
      ∀ s, p ≤ s → s < r → free s = false := by
  by_cases hf : free p = true
  · exact ⟨p, fap_of_free free p maxPort hf, le_refl p, hp, hf, fun s h1 h2 => by omega⟩
  · have hfp : free p = false := by
      revert hf; cases free p <;> simp
    obtain ⟨q, hq1, hq2, hq3⟩ := hex
    have hpq : p ≠ q := by
      rintro rfl; rw [hq3] at hfp; exact Bool.true_eq_false.mp hfp
    have hlt : p < maxPort := lt_of_lt_of_le (lt_of_le_of_ne hq1 hpq) hq2
    obtain ⟨r, hr1, hr2, hr3, hr4, hr5⟩ :=
      fap_least_free free (p + 1) maxPort hlt ⟨q, by omega, hq2, hq3⟩
    refine ⟨r, ?_, by omega, hr3, hr4, ?_⟩
    · rw [findAvailablePort]
      simp only [hf, if_false, hlt, if_true, Bool.false_eq_true]
      exact hr1
    · intro s h1 h2
      rcases Nat.eq_or_lt_of_le h1 with h | h
      · rw [← h]; exact hfp
      · exact hr5 s h h2
termination_by maxPort - p

/-- The probe trace is the run of consecutive integers starting at `p` whose
length is the number of probes; the search's answer is determined by whether
the last probed candidate was free. -/
theorem probeTrace_spec (free : Nat → Bool) (p maxPort : Nat) :
    ∃ L, probeTrace free p maxPort = List.range' p L ∧ 1 ≤ L ∧
      (p ≤ maxPort → p + L ≤ maxPort + 1) ∧
      findAvailablePort free p maxPort =
        (if free (p + L - 1) = true then some (p + L - 1) else none) := by
  by_cases hf : free p = true
  · refine ⟨1, ?_, le_refl 1, fun hpm => by omega, ?_⟩
    · rw [probeTrace]; simp [hf, List.range']
    · rw [findAvailablePort]; simp [hf]
  · by_cases hlt : p < maxPort
    · obtain ⟨L, h1, h2, h3, h4⟩ := probeTrace_spec free (p + 1) maxPort
      refine ⟨L + 1, ?_, by omega, fun hpm => ?_, ?_⟩
      · rw [probeTrace]
        simp only [hf, if_false, hlt, if_true, Bool.false_eq_true]
        rw [h1]
        simp [List.range']
      · have := h3 (by omega)
        omega
      · rw [findAvailablePort]
        simp only [hf, if_false, hlt, if_true, Bool.false_eq_true]
        rw [h4]
        have harith : p + 1 + L - 1 = p + (L + 1) - 1 := by omega
        rw [harith]
    · refine ⟨1, ?_, le_refl 1, fun hpm => by omega, ?_⟩
      · rw [probeTrace]; simp [hf, hlt, List.range']
      · rw [findAvailablePort]
        simp [hf, hlt]
termination_by maxPort - p

/-- Claim C1: for `p ≤ maxPort`, if some port of `[p, maxPort]` is free then
`findAvailablePort free p maxPort` returns the smallest free port `≥ p`; in
particular it returns `p` itself when `p` is free, and returns `p + k + 1`
when `p .. p + k` are occupied and `p + k + 1 ≤ maxPort` is free. -/
theorem findAvailablePort_returns_least_free (free : Nat → Bool) (p maxPort : Nat)
    (hp : p ≤ maxPort) (q : Nat) (hq1 : p ≤ q) (hq2 : q ≤ maxPort) (hq3 : free q = true) :
    ∃ r, findAvailablePort free p maxPort = some r ∧ p ≤ r ∧ r ≤ maxPort ∧ free r = true ∧
      (∀ s, p ≤ s → s < r → free s = false) ∧
      (free p = true → r = p) ∧
      (∀ k, (∀ i, i ≤ k → free (p + i) = false) → free (p + k + 1) = true → r = p + k + 1) := by
  obtain ⟨r, h1, h2, h3, h4, h5⟩ := fap_least_free free p maxPort hp ⟨q, hq1, hq2, hq3⟩
  refine ⟨r, h1, h2, h3, h4, h5, ?_, ?_⟩
  · intro hfp
    by_contra hne
    have hpr : p < r := lt_of_le_of_ne h2 (Ne.symm hne)
    have := h5 p (le_refl p) hpr
    rw [hfp] at this
    exact Bool.true_eq_false.mp this
  · intro k hocc hfree
    have hub : r ≤ p + k + 1 := by
      by_contra hgt
      push_neg at hgt
      have := h5 (p + k + 1) (by omega) hgt
      rw [hfree] at this
      exact Bool.true_eq_false.mp this
    have hlb : ¬r ≤ p + k := by
      intro hle
      have hsub : r - p ≤ k := by omega
      have hro := hocc (r - p) hsub
      rw [Nat.add_sub_cancel' h2] at hro
      rw [h4] at hro
      exact Bool.true_eq_false.mp hro
    omega

/-- Witness for claim C1 at a concrete oracle: ports 3000 and 3001 occupied,
3002 free. -/
theorem findAvailablePort_returns_least_free_witness :
    3000 ≤ 65535 ∧ 3000 ≤ 3002 ∧ 3002 ≤ 65535 ∧ (fun n => decide (n = 3002)) 3002 = true ∧
      ∃ r, findAvailablePort (fun n => decide (n = 3002)) 3000 65535 = some r ∧
        3000 ≤ r ∧ r ≤ 65535 ∧ (fun n => decide (n = 3002)) r = true ∧
        (∀ s, 3000 ≤ s → s < r → (fun n => decide (n = 3002)) s = false) ∧
        ((fun n => decide (n = 3002)) 3000 = true → r = 3000) ∧
        (∀ k, (∀ i, i ≤ k → (fun n => decide (n = 3002)) (3000 + i) = false) →
          (fun n => decide (n = 3002)) (3000 + k + 1) = true → r = 3000 + k + 1) :=
  ⟨by decide, by decide, by decide, by decide,
    findAvailablePort_returns_least_free (fun n => decide (n = 3002)) 3000 65535
      (by decide) 3002 (by decide) (by decide) (by decide)⟩

/-- Claim C3: for `p ≤ maxPort`, if every port of `[p, maxPort]` is occupied
(every bind probe fails) then `findAvailablePort free p maxPort` returns
`none` (the template's `null`). -/
theorem findAvailablePort_exhausted_returns_none (free : Nat → Bool) (p maxPort : Nat)
    (hp : p ≤ maxPort) (hall : ∀ q, p ≤ q → q ≤ maxPort → free q = false) :
    findAvailablePort free p maxPort = none :=
  fap_none_of_all_occupied free p maxPort hp hall

/-- Witness for claim C3: every probe fails on `[4000, 4005]`. -/
theorem findAvailablePort_exhausted_returns_none_witness :
    4000 ≤ 4005 ∧ (∀ q, 4000 ≤ q → q ≤ 4005 → (fun _ => false : Nat → Bool) q = false) ∧
      findAvailablePort (fun _ => false) 4000 4005 = none :=
  ⟨by decide, fun q h1 h2 => rfl,
    findAvailablePort_exhausted_returns_none (fun _ => false) 4000 4005 (by decide)
      (fun q h1 h2 => rfl)⟩

/-- Claim C4: the search probes the consecutive candidates
`p, p + 1, p + 2, …` (strictly increasing by exactly one, never downward or
repeated), performs at most `maxPort - p + 1` probes when `p ≤ maxPort`, and
terminates with the port or `none` according to the last probe. -/
theorem findAvailablePort_probe_sequence (free : Nat → Bool) (p maxPort : Nat) :
    ∃ L, probeTrace free p maxPort = List.range' p L ∧ 1 ≤ L ∧
      (p ≤ maxPort → L ≤ maxPort - p + 1) ∧
      findAvailablePort free p maxPort =
        (if free (p + L - 1) = true then some (p + L - 1) else none) := by
  obtain ⟨L, h1, h2, h3, h4⟩ := probeTrace_spec free p maxPort
  exact ⟨L, h1, h2, fun hpm => by have := h3 hpm; omega, h4⟩

/-- Witness for claim C4 at a concrete oracle: with 5000 and 5001 occupied
and 5002 free, the trace is `[5000, 5001, 5002]`. -/
theorem findAvailablePort_probe_sequence_witness :
    ∃ L, probeTrace (fun n => decide (5002 ≤ n)) 5000 65535 = List.range' 5000 L ∧ 1 ≤ L ∧
      (5000 ≤ 65535 → L ≤ 65535 - 5000 + 1) ∧
      findAvailablePort (fun n => decide (5002 ≤ n)) 5000 65535 =
        (if (fun n => decide (5002 ≤ n)) (5000 + L - 1) = true then some (5000 + L - 1)
         else none) :=
  findAvailablePort_probe_sequence (fun n => decide (5002 ≤ n)) 5000 65535

/-- Claim C10: the ceiling is only consulted after a failed probe — when the
very first probe at `p` succeeds, `findAvailablePort free p maxPort` returns
`p` even if `p > maxPort`, so the result is not guaranteed to lie in
`[p, maxPort]`. -/
theorem findAvailablePort_first_probe_ignores_ceiling (free : Nat → Bool) (p maxPort : Nat)
    (h : free p = true) :
    findAvailablePort free p maxPort = some p :=
  fap_of_free free p maxPort h

/-- Witness for claim C10 at a preferred port strictly above the ceiling:
70000 > 65535, yet a free 70000 is returned. -/
theorem findAvailablePort_first_probe_ignores_ceiling_witness :
    (fun _ => true : Nat → Bool) 70000 = true ∧ 65535 < 70000 ∧
      findAvailablePort (fun _ => true) 70000 65535 = some 70000 :=
  ⟨rfl, by decide, findAvailablePort_first_probe_ignores_ceiling (fun _ => true) 70000 65535 rfl⟩

/-- The two variants build different `scripts` maps (`dev` vs `run`), so
their manifests differ for every project name. -/
theorem packageJson_variants_ne (n : String) : packageJsonA n ≠ packageJsonB n := by
  intro h
  have h2 := congrArg Manifest.scripts h
  simp [packageJsonA, packageJsonB] at h2

/-- Counterexample to claim C2 as stated: generating `"demo"` with variant A
(`src/index.js`) also writes `src/app.js`, which is not in the claim's
enumerated file set, so the output is not exactly that set. -/
theorem generated_files_not_exactly_claimed :
    ["src", "app.js"] ∈ writePaths (createProjectOpsA "demo") ∧
      ["src", "app.js"] ∉ claimedProjectFiles := by
  decide

/-- Claim C2 (amended): for every project name, variant A writes exactly the
enumerated files plus the additional `src/app.js`, and variant B writes
exactly the enumerated files; both ensure exactly the root and the seven
enumerated subdirectories (the four claimed empty ones included), and every
claimed file and directory is indeed produced. -/
theorem createProject_file_plan (n : String) :
    writePaths (createProjectOpsA n) =
      [["package.json"], ["src", "app.js"], ["server.js"], ["src", "config", "db.js"],
       ["src", "routes", "index.js"], ["src", "routes", "userRoutes.js"]] ∧
    dirPaths (createProjectOpsA n) =
      [[], ["public"], ["src"], ["src", "config"], ["src", "controllers"],
       ["src", "models"], ["src", "routes"], ["src", "utils"]] ∧
    writePaths (createProjectOpsB n) = claimedProjectFiles ∧
    dirPaths (createProjectOpsB n) =
      [[], ["public"], ["src"], ["src", "config"], ["src", "controllers"],
       ["src", "models"], ["src", "routes"], ["src", "utils"]] ∧
    (∀ q, q ∈ claimedProjectFiles → q ∈ writePaths (createProjectOpsA n)) ∧
    (∀ d, d ∈ claimedProjectDirs → d ∈ dirPaths (createProjectOpsA n)) := by
  refine ⟨rfl, rfl, rfl, rfl, ?_, ?_⟩
  · show ∀ q, q ∈ claimedProjectFiles →
      q ∈ [["package.json"], ["src", "app.js"], ["server.js"], ["src", "config", "db.js"],
           ["src", "routes", "index.js"], ["src", "routes", "userRoutes.js"]]
    decide
  · show ∀ d, d ∈ claimedProjectDirs →
      d ∈ [[], ["public"], ["src"], ["src", "config"], ["src", "controllers"],
           ["src", "models"], ["src", "routes"], ["src", "utils"]]
    decide

/-- Counterexample to claim C5 as stated: at project name `"demo"` the two
variants neither write the same file set nor the same contents — variant A
additionally writes `src/app.js`, and the `server.js`, `userRoutes.js` and
manifest-script contents differ. -/
theorem variants_not_equivalent_counterexample :
    writePaths (createProjectOpsA "demo") ≠ writePaths (createProjectOpsB "demo") ∧
    serverJsContentA ≠ serverJsContentB ∧
    userRoutesContentA ≠ userRoutesContentB ∧
    (packageJsonA "demo").scripts ≠ (packageJsonB "demo").scripts := by
  refine ⟨by decide, by decide, by decide, by decide⟩

/-- Claim C5 (amended): the two variants agree on the contents of
`src/config/db.js` and `src/routes/index.js`, but diverge beyond the final
step: variant A additionally writes `src/app.js` (every variant-B file path
is also written by A), and the contents of `userRoutes.js`, `server.js` and
the manifest differ; the final steps differ as claimed — A only prints
instructions while B shells out to `npm install`. -/
theorem variants_divergence (n : String) (r : InstallResult) :
    dbJsContentA = dbJsContentB ∧
    routesIndexContentA = routesIndexContentB ∧
    userRoutesContentA ≠ userRoutesContentB ∧
    serverJsContentA ≠ serverJsContentB ∧
    packageJsonA n ≠ packageJsonB n ∧
    ["src", "app.js"] ∈ writePaths (createProjectOpsA n) ∧
    ["src", "app.js"] ∉ writePaths (createProjectOpsB n) ∧
    (∀ q, q ∈ writePaths (createProjectOpsB n) → q ∈ writePaths (createProjectOpsA n)) ∧
    (createProjectAFinish n).ranNpmInstall = false ∧
    (createProjectBFinish n r).ranNpmInstall = true := by
  refine ⟨rfl, rfl, by decide, by decide, packageJson_variants_ne n, ?_, ?_, ?_, rfl, ?_⟩
  · show ["src", "app.js"] ∈
      [["package.json"], ["src", "app.js"], ["server.js"], ["src", "config", "db.js"],
       ["src", "routes", "index.js"], ["src", "routes", "userRoutes.js"]]
    decide
  · show ["src", "app.js"] ∉
      [["package.json"], ["server.js"], ["src", "config", "db.js"],
       ["src", "routes", "index.js"], ["src", "routes", "userRoutes.js"]]
    decide
  · show ∀ q, q ∈ [["package.json"], ["server.js"], ["src", "config", "db.js"],
        ["src", "routes", "index.js"], ["src", "routes", "userRoutes.js"]] →
      q ∈ [["package.json"], ["src", "app.js"], ["server.js"], ["src", "config", "db.js"],
           ["src", "routes", "index.js"], ["src", "routes", "userRoutes.js"]]
    decide
  · cases r <;> rfl

/-- Claim C6: variant A's generation is deterministic and idempotent at the
file level — running it a second time leaves every file of the filesystem
unchanged (each template file is unconditionally overwritten with the same
bytes), and the contents it writes do not depend on the state the run
started from. -/
theorem createProjectA_idempotent (n : String) (fs fs2 : FS) (p : List String) :
    (applyOps (createProjectOpsA n) (applyOps (createProjectOpsA n) fs)).files p =
      (applyOps (createProjectOpsA n) fs).files p ∧
    (p ∈ writePaths (createProjectOpsA n) →
      (applyOps (createProjectOpsA n) fs).files p =
        (applyOps (createProjectOpsA n) fs2).files p) := by
  constructor
  · simp only [createProjectOpsA, applyOps, List.foldl, applyOp]
    split_ifs <;> rfl
  · intro hp
    simp only [createProjectOpsA, writePaths, List.mem_cons, List.not_mem_nil, or_false] at hp
    simp only [createProjectOpsA, applyOps, List.foldl, applyOp]
    rcases hp with h | h | h | h | h | h <;> subst h <;> simp

/-- Claim C7: for every project name, both variants' manifests carry that
exact name, version `1.0.0`, a `start` script and a nodemon
development-mode script (`dev` in variant A, `run` in variant B), exactly
the dependencies express, cors, dotenv and mongoose, and exactly the
dev-dependency nodemon. -/
theorem packageJson_fields (n : String) :
    (packageJsonA n).name = n ∧ (packageJsonA n).version = "1.0.0" ∧
    (packageJsonA n).scripts = [("start", "node server.js"), ("dev", "nodemon server.js")] ∧
    (packageJsonA n).dependencies.map Prod.fst = ["express", "cors", "dotenv", "mongoose"] ∧
    (packageJsonA n).devDependencies = [("nodemon", "^3.1.7")] ∧
    (packageJsonB n).name = n ∧ (packageJsonB n).version = "1.0.0" ∧
    (packageJsonB n).scripts = [("start", "node server.js"), ("run", "nodemon server.js")] ∧
    (packageJsonB n).dependencies.map Prod.fst = ["express", "cors", "dotenv", "mongoose"] ∧
    (packageJsonB n).devDependencies = [("nodemon", "^3.1.7")] :=
  ⟨rfl, rfl, rfl, rfl, rfl, rfl, rfl, rfl, rfl, rfl⟩

/-- Claim C8: when variant B's `npm install` step fails, the rejection is
caught and logged, the run still reports the project as created, all files
of the plan were already written, and the process exits with status 0. -/
theorem install_failure_is_nonfatal (n s : String) :
    (createProjectBFinish n (InstallResult.failed s)).exitCode = 0 ∧
    ("Error installing dependencies: " ++ s) ∈
      (createProjectBFinish n (InstallResult.failed s)).logs ∧
    ("Project " ++ n ++ " created successfully!") ∈
      (createProjectBFinish n (InstallResult.failed s)).logs ∧
    writePaths (createProjectOpsB n) = claimedProjectFiles := by
  refine ⟨rfl, ?_, ?_, rfl⟩ <;> simp [createProjectBFinish]

/-- Claim C9: in both variants, every `writeFile` targets a path whose
parent directory (the project root included, ensured first) was ensured by
an earlier operation of the same run. -/
theorem writes_target_ensured_parents (n : String) :
    writesAfterDirs [] (createProjectOpsA n) = true ∧
    writesAfterDirs [] (createProjectOpsB n) = true :=
  ⟨rfl, rfl⟩

end MyNodeBundler
